import Mathlib

/-!
Verification of the flights-booking catalog (src/flights.py) against its
natural-language specification.

The Python module defines a Booking dataclass, a helper sublist_in_list,
and a FlightsSchedule class with add_booking and two query methods. We
embed these shallowly: Python datetime becomes a record of numeric fields
compared lexicographically, generators become lists, and a fallible add
(Python assert raises AssertionError) returns Except.

A point of the embedding that matters below: in the source, add_booking
runs `assert f"...", condition` twice. Python evaluates the FIRST operand
of assert as the test and treats the second as the message, so what is
tested is the truthiness of the f-string (non-empty, hence always true);
the intended length/capacity conditions are the message and are never
checked. The embedding models the assert exactly as Python executes it.
-/

/-- Shallow embedding of the Python datetime values used by the module:
year, month, day, hour, minute, second. Python compares datetimes
field-lexicographically. -/
structure DateTime where
  year : Nat
  month : Nat
  day : Nat
  hour : Nat
  minute : Nat
  second : Nat
deriving DecidableEq, Repr

/-- Python datetime strict comparison, field-lexicographic, as a Bool. -/
def DateTime.ltb (a b : DateTime) : Bool :=
  if a.year ≠ b.year then a.year < b.year
  else if a.month ≠ b.month then a.month < b.month
  else if a.day ≠ b.day then a.day < b.day
  else if a.hour ≠ b.hour then a.hour < b.hour
  else if a.minute ≠ b.minute then a.minute < b.minute
  else a.second < b.second

/-- Lexicographic strict order on DateTime stated as a proposition, written
independently of the boolean comparison chain (used to give the time-filter
claims content beyond the filter definition itself). -/
def DateTime.specLt (a b : DateTime) : Prop :=
  a.year < b.year ∨ (a.year = b.year ∧
    (a.month < b.month ∨ (a.month = b.month ∧
      (a.day < b.day ∨ (a.day = b.day ∧
        (a.hour < b.hour ∨ (a.hour = b.hour ∧
          (a.minute < b.minute ∨ (a.minute = b.minute ∧
            a.second < b.second)))))))))

theorem DateTime.ltb_iff (a b : DateTime) :
    DateTime.ltb a b = true ↔ DateTime.specLt a b := by
  unfold DateTime.ltb DateTime.specLt
  split_ifs with h1 h2 h3 h4 h5 <;> simp_all

/-- Zero-padding to two digits, as Python str(datetime) renders month, day,
hour, minute and second. -/
def pad2 (n : Nat) : String :=
  if n < 10 then "0" ++ toString n else toString n

/-- Rendering of a datetime as Python str(datetime) produces it:
YYYY-MM-DD HH:MM:SS (years in this module are four digits already). -/
def DateTime.render (d : DateTime) : String :=
  toString d.year ++ "-" ++ pad2 d.month ++ "-" ++ pad2 d.day ++ " " ++
    pad2 d.hour ++ ":" ++ pad2 d.minute ++ ":" ++ pad2 d.second

/-- Embedding of the Python join on a separator (sep.join(list)):
empty list gives the empty string, otherwise the items with sep between
consecutive items. -/
def joinStr (sep : String) : List String → String
  | [] => ""
  | [a] => a
  | a :: rest => a ++ sep ++ joinStr sep rest

/-- The Booking dataclass: passenger_name, departure (UTC), itenerary
(the source spells the field itenerary). -/
structure Booking where
  passenger_name : String
  departure : DateTime
  itenerary : List String
deriving DecidableEq, Repr

/-- Embedding of Booking.__repr__ from the source: note the source writes
the label itenerary (not itinerary) into the rendered string. -/
def Booking.reprStr (b : Booking) : String :=
  let itenerary_nice := joinStr ("->") b.itenerary
  "Passenger name: " ++ b.passenger_name ++ ", departure: " ++
    DateTime.render b.departure ++ ", itenerary: \"" ++ itenerary_nice ++ "\""

/-- Embedding of sublist_in_list from the source:
any(test_list[idx : idx + len(sublist)] == sublist
    for idx in range(len(test_list) - len(sublist) + 1)).
Python range(n) is empty for n <= 0, so the Python bound
len(test_list) - len(sublist) + 1 (integer subtraction) yields exactly
max(0, len(test) - len(sub) + 1) indices, which over Nat is
test_list.length + 1 - sublist.length. -/
def sublist_in_list (sublist : List String) (test_list : List String) : Bool :=
  (List.range (test_list.length + 1 - sublist.length)).any
    (fun idx => (test_list.drop idx).take sublist.length == sublist)

/-- The FlightsSchedule class state: the ordered list of bookings. -/
structure FlightsSchedule where
  bookings : List Booking
deriving DecidableEq, Repr

/-- FlightsSchedule() constructs the empty collection. -/
def FlightsSchedule.empty : FlightsSchedule := ⟨[]⟩

/-- Python truthiness of a string: bool(s) is len(s) != 0. -/
def pyTruthy (s : String) : Bool := s.length != 0

/-- Embedding of add_booking. The source executes
assert f"received itenerary with length ...", len(booking.itenerary) < 10
assert f"booking length is already ...", len(self.bookings) < 1000
self.bookings.append(booking); return self.
Python assert tests its first operand, here the f-string, and raises
AssertionError when that operand is falsy; the length comparisons are the
assert message, not the tested condition. The embedding tests exactly what
Python tests. -/
def FlightsSchedule.add_booking (s : FlightsSchedule) (booking : Booking) :
    Except String FlightsSchedule :=
  if !pyTruthy ("received itenerary with length " ++
      toString booking.itenerary.length) then
    Except.error ("AssertionError")
  else if !pyTruthy ("booking length is already " ++
      toString s.bookings.length) then
    Except.error ("AssertionError")
  else
    Except.ok ⟨s.bookings ++ [booking]⟩

/-- Embedding of select_bookings_by_latest_departure_time: the generator
yielding, in order, the bookings with departure < departs_before. -/
def FlightsSchedule.select_bookings_by_latest_departure_time
    (s : FlightsSchedule) (departs_before : DateTime) : List Booking :=
  s.bookings.filter (fun booking => DateTime.ltb booking.departure departs_before)

/-- Embedding of select_bookings_by_sequential_airports_couple: the
generator yielding, in order, the bookings whose itenerary contains
[airport1, airport2] as a contiguous sublist. -/
def FlightsSchedule.select_bookings_by_sequential_airports_couple
    (s : FlightsSchedule) (airport1 airport2 : String) : List Booking :=
  let sequence_to_search := [airport1, airport2]
  s.bookings.filter (fun booking => sublist_in_list sequence_to_search booking.itenerary)

/-- Building a catalog by a sequence of add_booking calls starting from the
empty schedule, propagating any failure. -/
def buildCatalog (bs : List Booking) : Except String FlightsSchedule :=
  bs.foldlM FlightsSchedule.add_booking FlightsSchedule.empty

/- Basic facts about the embedding. -/

theorem pyTruthy_append (s t : String) (h : 0 < s.length) :
    pyTruthy (s ++ t) = true := by
  simp [pyTruthy, String.length_append]
  omega

theorem add_booking_ok (s : FlightsSchedule) (b : Booking) :
    s.add_booking b = Except.ok ⟨s.bookings ++ [b]⟩ := by
  unfold FlightsSchedule.add_booking
  rw [pyTruthy_append _ _ (by decide), pyTruthy_append _ _ (by decide)]
  rfl

theorem foldlM_add_booking (bs : List Booking) : ∀ s : FlightsSchedule,
    bs.foldlM FlightsSchedule.add_booking s = Except.ok ⟨s.bookings ++ bs⟩ := by
  induction bs with
  | nil => intro s; rw [List.append_nil]; rfl
  | cons b rest ih =>
      intro s
      rw [List.foldlM_cons, add_booking_ok]
      show rest.foldlM FlightsSchedule.add_booking ⟨s.bookings ++ [b]⟩ = _
      rw [ih]
      simp

theorem buildCatalog_ok (bs : List Booking) :
    buildCatalog bs = Except.ok ⟨bs⟩ := by
  unfold buildCatalog
  rw [foldlM_add_booking]
  rfl

/- Characterization of sublist_in_list on a two-element pattern: the pair
occurs contiguously exactly when there is a position i holding the first
element with the second element right after it. -/

theorem take_two_drop_eq : ∀ (l : List String) (i : Nat) (x y : String),
    ((l.drop i).take 2 = [x, y]) ↔ l.get? i = some x ∧ l.get? (i + 1) = some y := by
  intro l
  induction l with
  | nil => intro i x y; simp
  | cons a tl ih =>
      intro i x y
      cases i with
      | zero =>
          cases tl with
          | nil => simp
          | cons b r => simp [List.take]
      | succ j => simpa using ih j x y

theorem sublist_in_list_pair_iff (x y : String) (l : List String) :
    sublist_in_list [x, y] l = true ↔
      ∃ i, l.get? i = some x ∧ l.get? (i + 1) = some y := by
  unfold sublist_in_list
  rw [List.any_eq_true]
  constructor
  · rintro ⟨i, _, hp⟩
    rw [beq_iff_eq] at hp
    exact ⟨i, (take_two_drop_eq l i x y).mp hp⟩
  · rintro ⟨i, hx, hy⟩
    have hlen : i + 1 < l.length := by
      by_contra hc
      rw [List.get?_eq_none.mpr (by omega)] at hy
      exact Option.noConfusion hy
    refine ⟨i, List.mem_range.mpr (by simp; omega), ?_⟩
    rw [beq_iff_eq]
    exact (take_two_drop_eq l i x y).mpr ⟨hx, hy⟩

/- Concrete data: the six bookings of the worked example in the source
(test1) and the spec scenario, plus inputs used to probe edge cases. -/

def alice : Booking := ⟨"Alice", ⟨2020, 5, 26, 6, 45, 0⟩, ["LHR", "AMS"]⟩

def bruce : Booking := ⟨"Bruce", ⟨2020, 6, 4, 11, 4, 0⟩, ["GVA", "AMS", "LHR"]⟩

def cindy : Booking := ⟨"Cindy", ⟨2020, 6, 6, 10, 0, 0⟩, ["AAL", "AMS", "LHR", "JFK", "SFO"]⟩

def derek : Booking := ⟨"Derek", ⟨2020, 6, 12, 8, 9, 0⟩, ["AMS", "LHR"]⟩

def erica : Booking := ⟨"Erica", ⟨2020, 6, 13, 20, 40, 0⟩, ["ATL", "AMS", "AAL"]⟩

def fred : Booking := ⟨"Fred", ⟨2020, 6, 14, 9, 10, 0⟩, ["AMS", "CDG", "LHR"]⟩

/-- The catalog state after adding the six example bookings in order. -/
def demoSchedule : FlightsSchedule := ⟨[alice, bruce, cindy, derek, erica, fred]⟩

/-- A booking whose itenerary repeats the directed pair (AMS, LHR) at the
positions 0 and 2. -/
def loopy : Booking := ⟨"Loopy", ⟨2020, 7, 1, 12, 0, 0⟩, ["AMS", "LHR", "AMS", "LHR"]⟩

/-- A booking with a ten-airport itenerary (one past the documented
nine-airport limit). -/
def tenLeg : Booking :=
  ⟨"Overlong", ⟨2020, 7, 2, 12, 0, 0⟩,
    ["A01", "A02", "A03", "A04", "A05", "A06", "A07", "A08", "A09", "A10"]⟩

/-- A booking with an empty itenerary. -/
def ghost : Booking := ⟨"Ghost", ⟨2020, 7, 3, 12, 0, 0⟩, []⟩

/- Bridge between the accumulator-style String.intercalate of the library
and the structural join joinStr used in the embedding of the Python join. -/

/-- Tail part of a separated join: sep ++ a1 ++ sep ++ a2 ++ ... -/
def joinStrTail (sep : String) : List String → String
  | [] => ""
  | a :: rest => sep ++ a ++ joinStrTail sep rest

theorem joinStr_cons_eq (sep : String) : ∀ (rest : List String) (a : String),
    joinStr sep (a :: rest) = a ++ joinStrTail sep rest := by
  intro rest
  induction rest with
  | nil => intro a; simp [joinStr, joinStrTail]
  | cons b r ih =>
      intro a
      rw [show joinStr sep (a :: b :: r) = a ++ sep ++ joinStr sep (b :: r) from rfl, ih]
      simp [joinStrTail, String.append_assoc]

theorem intercalate_go_eq (sep : String) : ∀ (l : List String) (acc : String),
    String.intercalate.go acc sep l = acc ++ joinStrTail sep l := by
  intro l
  induction l with
  | nil => intro acc; simp [String.intercalate.go, joinStrTail]
  | cons a r ih =>
      intro acc
      rw [show String.intercalate.go acc sep (a :: r) =
            String.intercalate.go (acc ++ sep ++ a) sep r from rfl, ih]
      simp [joinStrTail, String.append_assoc]

theorem intercalate_eq_joinStr (sep : String) : ∀ l : List String,
    String.intercalate sep l = joinStr sep l
  | [] => rfl
  | a :: rest => by
      rw [show String.intercalate sep (a :: rest) =
            String.intercalate.go a sep rest from rfl,
          intercalate_go_eq, joinStr_cons_eq]

/-- Claim C1: for a catalog built by successful add calls, a booking b is in
select_bookings_by_sequential_airports_couple x y exactly when b was added
and some position i of its itenerary holds x with y immediately after. -/
theorem claim_C1_pair_query_iff (bs : List Booking) (s : FlightsSchedule)
    (h : buildCatalog bs = Except.ok s) (x y : String) (b : Booking) :
    b ∈ s.select_bookings_by_sequential_airports_couple x y ↔
      b ∈ bs ∧ ∃ i, b.itenerary.get? i = some x ∧ b.itenerary.get? (i + 1) = some y := by
  rw [buildCatalog_ok] at h
  injection h with h
  subst h
  simp [FlightsSchedule.select_bookings_by_sequential_airports_couple,
        List.mem_filter, sublist_in_list_pair_iff]

theorem claim_C1_pair_query_iff_witness :
    alice ∈ demoSchedule.select_bookings_by_sequential_airports_couple ("LHR") ("AMS") ↔
      alice ∈ [alice, bruce, cindy, derek, erica, fred] ∧
      ∃ i, alice.itenerary.get? i = some ("LHR") ∧
        alice.itenerary.get? (i + 1) = some ("AMS") :=
  claim_C1_pair_query_iff [alice, bruce, cindy, derek, erica, fred] demoSchedule
    (buildCatalog_ok _) ("LHR") ("AMS") alice

/-- Claim C2: the claim says add enforces the capacity limits (itenerary
length at most 9, at most 1000 bookings). The code does not: its asserts
test the truthiness of the message f-string, so a ten-airport booking and
an add onto a catalog already holding 1000 bookings both succeed. -/
theorem claim_C2_capacity_not_enforced :
    FlightsSchedule.add_booking ⟨[]⟩ tenLeg = Except.ok ⟨[tenLeg]⟩ ∧
    tenLeg.itenerary.length = 10 ∧
    FlightsSchedule.add_booking ⟨List.replicate 1000 alice⟩ tenLeg =
      Except.ok ⟨List.replicate 1000 alice ++ [tenLeg]⟩ :=
  ⟨add_booking_ok _ _, rfl, add_booking_ok _ _⟩

/-- Claim C3 counterexample: adding the booking with itenerary
[AMS, LHR, AMS, LHR] does not fail and does not leave the catalog
unchanged: the add returns the catalog extended with the booking, and the
booking is retrievable by the pair query. -/
theorem claim_C3_counterexample :
    FlightsSchedule.add_booking ⟨[]⟩ loopy = Except.ok ⟨[loopy]⟩ ∧
    loopy ∈ FlightsSchedule.select_bookings_by_sequential_airports_couple
      ⟨[loopy]⟩ ("AMS") ("LHR") :=
  ⟨add_booking_ok _ _, by decide⟩

/-- Claim C3 as amended: adding a booking whose itenerary repeats the same
directed adjacent pair (two distinct positions i and j both holding x with
y right after) succeeds, appends the booking, and the booking is
retrievable by the pair query for that pair. -/
theorem claim_C3_duplicate_pair_accepted (s : FlightsSchedule) (b : Booking)
    (x y : String) (i j : Nat) (_hij : i ≠ j)
    (hi1 : b.itenerary.get? i = some x) (hi2 : b.itenerary.get? (i + 1) = some y)
    (_hj1 : b.itenerary.get? j = some x) (_hj2 : b.itenerary.get? (j + 1) = some y) :
    s.add_booking b = Except.ok ⟨s.bookings ++ [b]⟩ ∧
    b ∈ FlightsSchedule.select_bookings_by_sequential_airports_couple
      ⟨s.bookings ++ [b]⟩ x y := by
  refine ⟨add_booking_ok s b, ?_⟩
  simp only [FlightsSchedule.select_bookings_by_sequential_airports_couple, List.mem_filter]
  refine ⟨List.mem_append_right _ (by simp), ?_⟩
  rw [sublist_in_list_pair_iff]
  exact ⟨i, hi1, hi2⟩

theorem claim_C3_duplicate_pair_accepted_witness :
    FlightsSchedule.add_booking ⟨[]⟩ loopy = Except.ok ⟨[loopy]⟩ ∧
    loopy ∈ FlightsSchedule.select_bookings_by_sequential_airports_couple
      ⟨[] ++ [loopy]⟩ ("AMS") ("LHR") :=
  claim_C3_duplicate_pair_accepted ⟨[]⟩ loopy ("AMS") ("LHR") 0 2 (by decide)
    (by decide) (by decide) (by decide) (by decide)

/-- Claim C4: a booking is in select_bookings_by_latest_departure_time t
exactly when it is in the catalog and its departure is strictly
lexicographically earlier than t. -/
theorem claim_C4_time_filter (s : FlightsSchedule) (t : DateTime) (b : Booking) :
    b ∈ s.select_bookings_by_latest_departure_time t ↔
      b ∈ s.bookings ∧ DateTime.specLt b.departure t := by
  simp [FlightsSchedule.select_bookings_by_latest_departure_time, List.mem_filter,
        DateTime.ltb_iff]

/-- Claim C5: the worked scenario. Adding Alice, Bruce, Cindy, Derek,
Erica, Fred in order succeeds; the pair query LHR-AMS returns exactly
[Alice]; the pair query AMS-LHR returns exactly [Bruce, Cindy, Derek] in
order; the time query before 2020-06-12 08:15 returns exactly
[Alice, Bruce, Cindy, Derek] in order. -/
theorem claim_C5_scenario :
    buildCatalog [alice, bruce, cindy, derek, erica, fred] = Except.ok demoSchedule ∧
    demoSchedule.select_bookings_by_sequential_airports_couple ("LHR") ("AMS") = [alice] ∧
    demoSchedule.select_bookings_by_sequential_airports_couple ("AMS") ("LHR") =
      [bruce, cindy, derek] ∧
    demoSchedule.select_bookings_by_latest_departure_time ⟨2020, 6, 12, 8, 15, 0⟩ =
      [alice, bruce, cindy, derek] :=
  ⟨buildCatalog_ok _, by decide, by decide, by decide⟩

/-- Claim C6: both select operations return their matching bookings as a
subsequence of the addition order, hence in the relative order in which
the bookings were added. -/
theorem claim_C6_order_preserved (bs : List Booking) (s : FlightsSchedule)
    (h : buildCatalog bs = Except.ok s) (t : DateTime) (x y : String) :
    (s.select_bookings_by_latest_departure_time t).Sublist bs ∧
    (s.select_bookings_by_sequential_airports_couple x y).Sublist bs := by
  rw [buildCatalog_ok] at h
  injection h with h
  subst h
  exact ⟨List.filter_sublist _, List.filter_sublist _⟩

theorem claim_C6_order_preserved_witness :
    (demoSchedule.select_bookings_by_latest_departure_time
      ⟨2020, 6, 12, 8, 15, 0⟩).Sublist [alice, bruce, cindy, derek, erica, fred] ∧
    (demoSchedule.select_bookings_by_sequential_airports_couple
      ("AMS") ("LHR")).Sublist [alice, bruce, cindy, derek, erica, fred] :=
  claim_C6_order_preserved [alice, bruce, cindy, derek, erica, fred] demoSchedule
    (buildCatalog_ok _) ⟨2020, 6, 12, 8, 15, 0⟩ ("AMS") ("LHR")

/-- Claim C7: a successful add returns the updated catalog, and chaining a
second add onto the returned value yields a catalog holding both bookings
in order. -/
theorem claim_C7_chainable (c : FlightsSchedule) (b1 b2 : Booking)
    (s1 s2 : FlightsSchedule)
    (h1 : c.add_booking b1 = Except.ok s1)
    (h2 : s1.add_booking b2 = Except.ok s2) :
    s1.bookings = c.bookings ++ [b1] ∧ s2.bookings = c.bookings ++ [b1, b2] := by
  rw [add_booking_ok] at h1
  injection h1 with h1
  subst h1
  rw [add_booking_ok] at h2
  injection h2 with h2
  subst h2
  exact ⟨rfl, by simp⟩

theorem claim_C7_chainable_witness :
    (⟨[alice]⟩ : FlightsSchedule).bookings = FlightsSchedule.empty.bookings ++ [alice] ∧
    (⟨[alice, bruce]⟩ : FlightsSchedule).bookings =
      FlightsSchedule.empty.bookings ++ [alice, bruce] :=
  claim_C7_chainable FlightsSchedule.empty alice bruce ⟨[alice]⟩ ⟨[alice, bruce]⟩
    (add_booking_ok _ _) (add_booking_ok _ _)

/-- Claim C8 counterexample: the rendering of Alice's booking is not the
string the claim gives (the source writes the label itenerary, not
itinerary, into the rendered string). -/
theorem claim_C8_counterexample :
    Booking.reprStr alice ≠
      "Passenger name: Alice, departure: 2020-05-26 06:45:00, itinerary: \"LHR->AMS\"" ∧
    Booking.reprStr alice =
      "Passenger name: Alice, departure: 2020-05-26 06:45:00, itenerary: \"LHR->AMS\"" :=
  ⟨by decide, by decide⟩

/-- Claim C8 as amended: the rendering is exactly
Passenger name: n, departure: d, itenerary: then the itenerary codes
joined by the two-character arrow separator, enclosed in double quotes
(label spelled itenerary as in the source). -/
theorem claim_C8_render (n : String) (d : DateTime) (its : List String) :
    Booking.reprStr ⟨n, d, its⟩ =
      "Passenger name: " ++ n ++ ", departure: " ++ DateTime.render d ++
        ", itenerary: \"" ++ String.intercalate ("->") its ++ "\"" := by
  rw [intercalate_eq_joinStr]
  rfl

/-- Claim C9: when the catalog holds pairwise distinct bookings, the pair
query yields each matching booking once, even when the pair occurs at
several positions of that booking's itenerary. -/
theorem claim_C9_no_duplicate_results (s : FlightsSchedule) (x y : String)
    (h : s.bookings.Nodup) :
    (s.select_bookings_by_sequential_airports_couple x y).Nodup :=
  List.Nodup.filter _ h

theorem claim_C9_no_duplicate_results_witness :
    (FlightsSchedule.select_bookings_by_sequential_airports_couple
      ⟨[loopy]⟩ ("AMS") ("LHR")).Nodup :=
  claim_C9_no_duplicate_results ⟨[loopy]⟩ ("AMS") ("LHR") (by simp)

/-- Claim C10: a booking with an empty itenerary is accepted and appended;
it is in the time query result exactly when its departure is earlier than
the bound; and it is in no pair query result. -/
theorem claim_C10_empty_itenerary (s : FlightsSchedule) (b : Booking)
    (h : b.itenerary = []) :
    s.add_booking b = Except.ok ⟨s.bookings ++ [b]⟩ ∧
    (∀ t : DateTime,
      b ∈ FlightsSchedule.select_bookings_by_latest_departure_time
        ⟨s.bookings ++ [b]⟩ t ↔ DateTime.specLt b.departure t) ∧
    (∀ x y : String,
      b ∉ FlightsSchedule.select_bookings_by_sequential_airports_couple
        ⟨s.bookings ++ [b]⟩ x y) := by
  refine ⟨add_booking_ok s b, ?_, ?_⟩
  · intro t
    simp [FlightsSchedule.select_bookings_by_latest_departure_time, List.mem_filter,
          DateTime.ltb_iff]
  · intro x y
    simp only [FlightsSchedule.select_bookings_by_sequential_airports_couple,
      List.mem_filter]
    rintro ⟨-, hc⟩
    rw [h] at hc
    rw [show sublist_in_list [x, y] ([] : List String) = false from rfl] at hc
    exact Bool.noConfusion hc

theorem claim_C10_empty_itenerary_witness :
    FlightsSchedule.add_booking ⟨[]⟩ ghost = Except.ok ⟨[ghost]⟩ :=
  (claim_C10_empty_itenerary ⟨[]⟩ ghost rfl).1
